import Mathlib

/-
Shallow embedding of the token lifecycle monitoring and trade-decision
engine of Monitoring.py (lines 1-390 of src/Monitoring.py).

Prices and times are modelled as exact rationals; the decimal constants of
the source (0.80, 1.01, 1.15, 1.2, 1.1) are taken at their decimal values.
The per-tick body of trade_logic_and_price_display_loop is modelled as a
pure state-transition function: the Python globals g_baseline_price_usd,
g_buy_price_usd, g_highest_price_usd, g_trade_status,
g_token_monitor_start_time together with the loop-local
stagnation_timer_start form the SessionState; returning from the task via
log_trade_result is modelled as emitting an Outcome value.  External inputs
of one loop iteration (the latest stream trade, the rate-limited
Dexscreener fetch, the wall clock) form the TickInput.
-/

namespace SniperX

/-- Trading parameters, Monitoring.py lines 30-44. -/
def TRAILING_STOP_THRESHOLD_PERCENT : ℚ := 8/10

def TRAILING_STOP_ACTIVATION_PERCENT : ℚ := 101/100

def TAKE_PROFIT_THRESHOLD_PERCENT : ℚ := 115/100

def STOP_LOSS_THRESHOLD_PERCENT : ℚ := 8/10

def STAGNATION_PRICE_THRESHOLD_PERCENT : ℚ := 8/10

def STAGNATION_TIMEOUT_SECONDS : ℚ := 180

def NO_BUY_SIGNAL_TIMEOUT_SECONDS : ℚ := 180

def MIN_VOLUME_RATIO_Q : ℚ := 12/10

def MIN_TX_RATIO_Q : ℚ := 11/10

def MIN_BUY_VOLUME_USD : ℚ := 500

def MIN_BUY_TXS : ℕ := 10

def MIN_SELL_VOLUME_USD : ℚ := 100

def BUY_SIGNAL_PRICE_INCREASE_PERCENT : ℚ := 101/100

/-- The value of the g_trade_status global: the source uses the strings
"monitoring" and "bought"; a closed session is represented by the trading
task returning, which the embedding models as an Outcome being emitted. -/
inductive TradeStatus
  | monitoring
  | bought
deriving DecidableEq

/-- The dictionary returned by get_dexscreener_data (Monitoring.py lines
177-199): price, buy and sell volume, buy and sell transaction counts. -/
structure DexData where
  price : ℚ
  buy_volume : ℚ
  sell_volume : ℚ
  buys : ℕ
  sells : ℕ
deriving DecidableEq

/-- The per-session mutable state of the monitoring engine: the globals
reset by reset_token_specific_state (lines 151-158) plus the loop-local
stagnation_timer_start of trade_logic_and_price_display_loop (line 223). -/
structure SessionState where
  baseline_price_usd : Option ℚ
  buy_price_usd : Option ℚ
  highest_price_usd : Option ℚ
  trade_status : TradeStatus
  monitor_start_time : ℚ
  stagnation_timer_start : Option ℚ
deriving DecidableEq

/-- The reason string passed to log_trade_result when the trading task
returns. -/
inductive ExitReason
  | noBuySignalTimeout
  | takeProfit
  | stopLoss
  | trailingStop
  | stagnationTimeout
deriving DecidableEq

/-- What the trading task reports when it returns: the reason together with
the buy and sell prices handed to log_trade_result at the return site. -/
structure Outcome where
  reason : ExitReason
  buy_price : Option ℚ
  sell_price : Option ℚ
deriving DecidableEq

/-- The external inputs of one iteration of
trade_logic_and_price_display_loop: the wall-clock time of the tick,
the stream price (solAmount/tokenAmount)*g_last_known_sol_price computed
from the newest ring-buffer trade when that trade has tokenAmount > 0
(lines 233-236), and the result of the rate-limited Dexscreener fetch
when one happened this tick (lines 238-243). -/
structure TickInput where
  current_time : ℚ
  stream_price : Option ℚ
  dex_data : Option DexData
deriving DecidableEq

/-- Price resolution of one tick, lines 230-243: the stream price wins; the
Dexscreener price is used only when the stream gave nothing and the fetched
price field is truthy (nonzero). -/
def resolvePrice (stream_price : Option ℚ) (dex_data : Option DexData) : Option ℚ :=
  match stream_price with
  | some p => some p
  | none =>
    match dex_data with
    | some dd => if dd.price ≠ 0 then some dd.price else none
    | none => none

/-- The volume-ratio leg of the buy signal, line 303: buy_volume divided by
max(sell_volume, MIN_SELL_VOLUME_USD) when sell_volume > 0, infinite (hence
passing) otherwise. -/
def volRatioOk (dd : DexData) : Bool :=
  if dd.sell_volume > 0 then
    decide (dd.buy_volume / max dd.sell_volume MIN_SELL_VOLUME_USD ≥ MIN_VOLUME_RATIO_Q)
  else true

/-- The transaction-ratio leg of the buy signal, line 304: buys divided by
max(sells, 1). -/
def txRatioOk (dd : DexData) : Bool :=
  decide ((dd.buys : ℚ) / (max dd.sells 1 : ℚ) ≥ MIN_TX_RATIO_Q)

/-- The volume-confirmation conjunction of the buy signal, line 306. -/
def volumeConfirm (dd : DexData) : Bool :=
  decide (dd.buy_volume ≥ MIN_BUY_VOLUME_USD) && decide (dd.buys ≥ MIN_BUY_TXS)
    && volRatioOk dd && txRatioOk dd

/-- The monitoring-status branch of the tick, lines 295-310: the
no-buy-signal timeout is checked first (strict greater-than, line 296) and
closes the session with only a sell price; otherwise the buy signal needs
the price condition together with a Dexscreener fetch on this very tick and
the volume confirmation. -/
def monitoringStep (s1 : SessionState) (inp : TickInput) (usd b : ℚ) :
    SessionState × Option Outcome :=
  if inp.current_time - s1.monitor_start_time > NO_BUY_SIGNAL_TIMEOUT_SECONDS then
    (s1, some { reason := .noBuySignalTimeout, buy_price := none, sell_price := some usd })
  else
    match inp.dex_data with
    | some dd =>
      if usd > b * BUY_SIGNAL_PRICE_INCREASE_PERCENT ∧ volumeConfirm dd = true then
        ({ s1 with buy_price_usd := some usd, highest_price_usd := some usd,
                   trade_status := .bought }, none)
      else (s1, none)
    | none => (s1, none)

/-- The bought-status branch of the tick, lines 312-334: update the peak
price, then evaluate take profit, stop loss, trailing stop and stagnation
in that order, each returning immediately when it fires. -/
def boughtStep (s1 : SessionState) (inp : TickInput) (usd b bp h0 : ℚ) :
    SessionState × Option Outcome :=
  let hi := if usd > h0 then usd else h0
  let s2 := { s1 with highest_price_usd := some hi }
  if usd ≥ bp * TAKE_PROFIT_THRESHOLD_PERCENT then
    (s2, some { reason := .takeProfit, buy_price := some bp, sell_price := some usd })
  else if usd ≤ bp * STOP_LOSS_THRESHOLD_PERCENT then
    (s2, some { reason := .stopLoss, buy_price := some bp, sell_price := some usd })
  else if hi > bp * TRAILING_STOP_ACTIVATION_PERCENT ∧
      usd ≤ hi * TRAILING_STOP_THRESHOLD_PERCENT then
    (s2, some { reason := .trailingStop, buy_price := some bp, sell_price := some usd })
  else if usd ≤ b * STAGNATION_PRICE_THRESHOLD_PERCENT then
    match s2.stagnation_timer_start with
    | none => ({ s2 with stagnation_timer_start := some inp.current_time }, none)
    | some t0 =>
      if inp.current_time - t0 > STAGNATION_TIMEOUT_SECONDS then
        (s2, some { reason := .stagnationTimeout, buy_price := some bp, sell_price := some usd })
      else (s2, none)
  else ({ s2 with stagnation_timer_start := none }, none)

/-- One iteration of trade_logic_and_price_display_loop, lines 225-334.
When no price resolves the iteration is skipped entirely (lines 245-247).
Otherwise the baseline is set on first resolution (lines 249-251) and the
status branch runs.  A bought status with a None highest price would raise
in Python at line 313 and be swallowed by the except clause of the loop (line
335), leaving the state as after the baseline assignment, which the
embedding renders as a no-op result. -/
def tick (s : SessionState) (inp : TickInput) : SessionState × Option Outcome :=
  match resolvePrice inp.stream_price inp.dex_data with
  | none => (s, none)
  | some usd =>
    let b := s.baseline_price_usd.getD usd
    let s1 := { s with baseline_price_usd := some b }
    match s1.trade_status with
    | .monitoring => monitoringStep s1 inp usd b
    | .bought =>
      match s1.buy_price_usd, s1.highest_price_usd with
      | some bp, some h0 => boughtStep s1 inp usd b bp h0
      | _, _ => (s1, none)

/-- Running the loop over a list of tick inputs, stopping at the first tick
that makes the task return (emit an Outcome). -/
def runTicks : SessionState → List TickInput → SessionState × Option Outcome
  | s, [] => (s, none)
  | s, inp :: rest =>
    match tick s inp with
    | (s1, none) => runTicks s1 rest
    | (s1, some o) => (s1, some o)

/-- The state produced by reset_token_specific_state (lines 151-158) at
monitoring start time t, with the loop-local stagnation timer at its
initial None. -/
def resetTokenState (t : ℚ) : SessionState :=
  { baseline_price_usd := none, buy_price_usd := none, highest_price_usd := none,
    trade_status := .monitoring, monitor_start_time := t,
    stagnation_timer_start := none }

/-- First-occurrence deduplication of the Address column of the feed: building
rows_map as an OrderedDict keyed by Address (lines 88-96) keeps one row per
address, ordered by first occurrence. -/
def dedupFirst : List String → List String
  | [] => []
  | a :: rest => a :: (dedupFirst rest).filter (fun x => x ≠ a)

/-- remove_token_from_csv, lines 85-113, with the feed modelled by its
Address column: None for a missing file, otherwise the list of row
addresses.  Returns the Boolean result of the source together with the
feed after the call.  A missing file returns False (line 86); an address
not present in rows_map returns False and leaves the file untouched
(line 113); a present address is deleted from rows_map and the remaining
rows are written back (lines 101-109). -/
def remove_token_from_csv (token_address : String) (feed : Option (List String)) :
    Bool × Option (List String) :=
  match feed with
  | none => (false, none)
  | some rows =>
    let keys := dedupFirst rows
    if token_address ∈ keys then
      (true, some (keys.filter (fun x => x ≠ token_address)))
    else
      (false, some rows)

/-- The outcome of one fetch attempt of periodic_sol_price_updater (lines
163-171): an HTTP response with its status and the optional
data["solana"]["usd"] field, or a raised exception. -/
inductive SolFetchResult
  | response (status : ℕ) (price : Option ℚ)
  | failure
deriving DecidableEq

/-- One iteration of periodic_sol_price_updater, lines 163-175, as a
function from the cached g_last_known_sol_price and the single fetch
attempt to the new cached value: the cache is overwritten only by a 200
response whose price field is truthy (nonzero) and different from the
cache; every other outcome leaves the cache as it was.  The body queries
exactly one endpoint; no second source is consulted. -/
def sol_price_refresh (cached : ℚ) (r : SolFetchResult) : ℚ :=
  match r with
  | .response status price =>
    if status = 200 then
      match price with
      | some p => if p ≠ 0 ∧ p ≠ cached then p else cached
      | none => cached
    else cached
  | .failure => cached

/-- Modelled from the spec: the refresh step as the spec describes it, with
a primary and a secondary source — the source file has no secondary source,
so this definition exists only to be compared with sol_price_refresh.  Per
the spec words: query the primary; on failure or zero/invalid result query
the secondary; only when both fail retain the cached value. -/
def sol_price_refresh_specced (cached : ℚ) (primary secondary : SolFetchResult) : ℚ :=
  let valid : SolFetchResult → Option ℚ := fun r =>
    match r with
    | .response status price =>
      if status = 200 then
        match price with
        | some p => if p ≠ 0 then some p else none
        | none => none
      else none
    | .failure => none
  match valid primary with
  | some p => p
  | none =>
    match valid secondary with
    | some p => p
    | none => cached

/-- One inbound websocket message of listen_for_trades as the listener sees
it: either JSON that parses, carrying its mint field and (abstractly) the
rest of the payload, or a message on which json.loads raises. -/
inductive StreamMsg
  | parsed (mint : String) (body : ℕ)
  | malformed
deriving DecidableEq

/-- How one connection of listen_for_trades ends. -/
inductive ConnEnd
  | closed
  | errorReconnect
deriving DecidableEq

/-- The per-connection message loop of listen_for_trades, lines 205-217,
over the sequence of inbound messages of one connection: a message that
parses and matches the subscribed mint is appended to the ring buffer
(line 211); a parsing failure raises out of the async-for into the except
clause (lines 215-217), abandoning the remaining messages of the connection
and reconnecting after the backoff sleep. -/
def listen_conn (mint_address : String) :
    List (String × ℕ) → List StreamMsg → List (String × ℕ) × ConnEnd
  | buf, [] => (buf, .closed)
  | buf, .malformed :: _ => (buf, .errorReconnect)
  | buf, .parsed m body :: rest =>
    listen_conn mint_address (if m = mint_address then buf ++ [(m, body)] else buf) rest

/-- The gain_loss_pct computation of log_trade_result, lines 62-64: defined
only when both prices are present and the buy price is strictly positive. -/
def gain_loss_pct (buy_price sell_price : Option ℚ) : Option ℚ :=
  match buy_price, sell_price with
  | some b, some s => if b > 0 then some ((s - b) / b * 100) else none
  | _, _ => none

/-- One row of trades.csv as written by log_trade_result, lines 66-81.  An
Option-valued numeric field is serialized by the source as the empty string
in the None case (lines 77-79). -/
structure LedgerRow where
  token_name : String
  mint_address : String
  reason : String
  buy_price : Option ℚ
  sell_price : Option ℚ
  gl_pct : Option ℚ
  result : String
deriving DecidableEq

/-- log_trade_result, lines 59-81, as the pure construction of the ledger
row it appends: the result column is PROFIT when the computed gain is
strictly positive, LOSS on any other computed gain, and the empty string
when no gain was computed (lines 71-72). -/
def log_trade_result (token_name mint_address reason : String)
    (buy_price sell_price : Option ℚ) : LedgerRow :=
  let g := gain_loss_pct buy_price sell_price
  { token_name := token_name, mint_address := mint_address, reason := reason,
    buy_price := buy_price, sell_price := sell_price, gl_pct := g,
    result :=
      match g with
      | some x => if x > 0 then "PROFIT" else "LOSS"
      | none => "" }

def ddGood : DexData :=
  { price := 1, buy_volume := 1000, sell_volume := 0, buys := 20, sells := 0 }

def scenarioAInputs : List TickInput :=
  [{ current_time := 1, stream_price := some 1, dex_data := some ddGood },
   { current_time := 2, stream_price := some (201/200), dex_data := some ddGood },
   { current_time := 3, stream_price := some (253/250), dex_data := some ddGood }]

theorem tick_skip_of_unresolved (s : SessionState) (inp : TickInput)
    (h : resolvePrice inp.stream_price inp.dex_data = none) :
    tick s inp = (s, none) := by
  unfold tick
  rw [h]

theorem tick_eq_monitoringStep (s : SessionState) (inp : TickInput) (usd : ℚ)
    (hres : resolvePrice inp.stream_price inp.dex_data = some usd)
    (hst : s.trade_status = .monitoring) :
    tick s inp =
      monitoringStep { s with baseline_price_usd := some (s.baseline_price_usd.getD usd) }
        inp usd (s.baseline_price_usd.getD usd) := by
  unfold tick
  rw [hres]
  simp [hst]

theorem tick_eq_boughtStep (s : SessionState) (inp : TickInput) (usd bp h0 : ℚ)
    (hres : resolvePrice inp.stream_price inp.dex_data = some usd)
    (hst : s.trade_status = .bought)
    (hbp : s.buy_price_usd = some bp)
    (hh0 : s.highest_price_usd = some h0) :
    tick s inp =
      boughtStep { s with baseline_price_usd := some (s.baseline_price_usd.getD usd) }
        inp usd (s.baseline_price_usd.getD usd) bp h0 := by
  unfold tick
  rw [hres]
  simp [hst, hbp, hh0]

theorem hiShape (h0 usd : ℚ) : (if usd > h0 then usd else h0) = max h0 usd := by
  rcases le_or_lt usd h0 with h | h
  · simp [not_lt.mpr h, max_eq_left h]
  · simp [h, max_eq_right h.le]

/-- C1 counterexample: a fresh session started at time 0 is ticked at 60 s,
190 s and 400 s with no price resolving on any tick; although far more than
the 180 s no-buy-signal window has elapsed, every tick is skipped, no
outcome is emitted and the status is still Monitoring. -/
theorem unknown_price_ticks_never_close :
    runTicks (resetTokenState 0)
      [{ current_time := 60, stream_price := none, dex_data := none },
       { current_time := 190, stream_price := none, dex_data := none },
       { current_time := 400, stream_price := none, dex_data := none }] =
      (resetTokenState 0, none)
    ∧ (400 : ℚ) - (resetTokenState 0).monitor_start_time > NO_BUY_SIGNAL_TIMEOUT_SECONDS
    ∧ (resetTokenState 0).trade_status = .monitoring := by
  refine ⟨rfl, ?_, rfl⟩
  norm_num [resetTokenState, NO_BUY_SIGNAL_TIMEOUT_SECONDS]

/-- C1 amended: a tick with no resolved price is skipped outright, so the
session cannot close while prices stay unknown; the NoBuySignalTimeout
close happens on a tick that resolves a price after the window has elapsed,
and then the sell price is that resolved price (never null) with a null buy
price. -/
theorem noBuyTimeout_needs_resolved_tick (s : SessionState) (inp : TickInput) :
    (resolvePrice inp.stream_price inp.dex_data = none → tick s inp = (s, none))
    ∧ (∀ usd, s.trade_status = .monitoring →
        resolvePrice inp.stream_price inp.dex_data = some usd →
        inp.current_time - s.monitor_start_time > NO_BUY_SIGNAL_TIMEOUT_SECONDS →
        (tick s inp).2 = some { reason := .noBuySignalTimeout,
                                buy_price := none, sell_price := some usd }) := by
  constructor
  · intro h
    exact tick_skip_of_unresolved s inp h
  · intro usd hmon hres hto
    rw [tick_eq_monitoringStep s inp usd hres hmon]
    unfold monitoringStep
    simp only [if_pos hto]

theorem noBuyTimeout_needs_resolved_tick_w :
    tick (resetTokenState 0) { current_time := 400, stream_price := none, dex_data := none } =
      (resetTokenState 0, none)
    ∧ (tick (resetTokenState 0)
        { current_time := 400, stream_price := some 2, dex_data := none }).2 =
      some { reason := .noBuySignalTimeout, buy_price := none, sell_price := some 2 } := by
  constructor
  · exact (noBuyTimeout_needs_resolved_tick (resetTokenState 0)
      { current_time := 400, stream_price := none, dex_data := none }).1 rfl
  · exact (noBuyTimeout_needs_resolved_tick (resetTokenState 0)
      { current_time := 400, stream_price := some 2, dex_data := none }).2 2 rfl rfl
      (by norm_num [resetTokenState, NO_BUY_SIGNAL_TIMEOUT_SECONDS])

theorem monitoringStep_dex_none (s1 : SessionState) (t : ℚ) (sp : Option ℚ) (usd b : ℚ)
    (hto : t - s1.monitor_start_time ≤ NO_BUY_SIGNAL_TIMEOUT_SECONDS) :
    monitoringStep s1 { current_time := t, stream_price := sp, dex_data := none } usd b
      = (s1, none) := by
  unfold monitoringStep
  rw [if_neg (not_lt.mpr hto)]

theorem monitoringStep_dex_some (s1 : SessionState) (t : ℚ) (sp : Option ℚ)
    (dd : DexData) (usd b : ℚ)
    (hto : t - s1.monitor_start_time ≤ NO_BUY_SIGNAL_TIMEOUT_SECONDS) :
    monitoringStep s1 { current_time := t, stream_price := sp, dex_data := some dd } usd b
      = if usd > b * BUY_SIGNAL_PRICE_INCREASE_PERCENT ∧ volumeConfirm dd = true then
          ({ s1 with buy_price_usd := some usd, highest_price_usd := some usd,
                     trade_status := .bought }, none)
        else (s1, none) := by
  unfold monitoringStep
  rw [if_neg (not_lt.mpr hto)]

/-- C2: in Monitoring status, on a tick that does not hit the no-buy-signal
timeout, the session transitions to Bought exactly when the tick resolves a
price above baseline times the buy multiplier and a Dexscreener fetch of
this tick passes the volume confirmation; the buy then records that price
as buy price and peak.  Scenario A: prices 1, 1.005, 1.012 over a baseline
of 1 with multiplier 1.01 buy on the third sample at 1.012. -/
theorem buy_signal_first_qualifying_tick (s : SessionState)
    (t : ℚ) (sp : Option ℚ) (dex : Option DexData)
    (hmon : s.trade_status = .monitoring)
    (hto : t - s.monitor_start_time ≤ NO_BUY_SIGNAL_TIMEOUT_SECONDS) :
    ((tick s { current_time := t, stream_price := sp, dex_data := dex }).1.trade_status
        = .bought ↔
      ∃ usd dd, resolvePrice sp dex = some usd ∧ dex = some dd ∧
        usd > s.baseline_price_usd.getD usd * BUY_SIGNAL_PRICE_INCREASE_PERCENT ∧
        volumeConfirm dd = true)
    ∧ (∀ usd, resolvePrice sp dex = some usd →
        (tick s { current_time := t, stream_price := sp, dex_data := dex }).1.trade_status
          = .bought →
        (tick s { current_time := t, stream_price := sp,
                  dex_data := dex }).1.buy_price_usd = some usd ∧
        (tick s { current_time := t, stream_price := sp,
                  dex_data := dex }).1.highest_price_usd = some usd)
    ∧ (runTicks (resetTokenState 0) (scenarioAInputs.take 1)).1.trade_status = .monitoring
    ∧ (runTicks (resetTokenState 0) (scenarioAInputs.take 2)).1.trade_status = .monitoring
    ∧ (runTicks (resetTokenState 0) (scenarioAInputs.take 2)).1.buy_price_usd = none
    ∧ (runTicks (resetTokenState 0) scenarioAInputs).1.trade_status = .bought
    ∧ (runTicks (resetTokenState 0) scenarioAInputs).1.buy_price_usd = some (253/250) := by
  have hscen :
      (runTicks (resetTokenState 0) (scenarioAInputs.take 1)).1.trade_status = .monitoring
      ∧ (runTicks (resetTokenState 0) (scenarioAInputs.take 2)).1.trade_status = .monitoring
      ∧ (runTicks (resetTokenState 0) (scenarioAInputs.take 2)).1.buy_price_usd = none
      ∧ (runTicks (resetTokenState 0) scenarioAInputs).1.trade_status = .bought
      ∧ (runTicks (resetTokenState 0) scenarioAInputs).1.buy_price_usd = some (253/250) := by
    norm_num [runTicks, tick, resolvePrice, resetTokenState, monitoringStep, volumeConfirm,
      volRatioOk, txRatioOk, NO_BUY_SIGNAL_TIMEOUT_SECONDS, BUY_SIGNAL_PRICE_INCREASE_PERCENT,
      MIN_BUY_VOLUME_USD, MIN_BUY_TXS, MIN_SELL_VOLUME_USD, MIN_VOLUME_RATIO_Q, MIN_TX_RATIO_Q,
      ddGood, scenarioAInputs]
  rcases hres : resolvePrice sp dex with _ | usd
  · rw [tick_skip_of_unresolved s _ hres]
    refine ⟨?_, ?_, hscen⟩
    · simp [hmon]
    · intro u hu
      exact absurd hu (by simp)
  · rw [tick_eq_monitoringStep s _ usd hres hmon]
    rcases dex with _ | dd
    · rw [monitoringStep_dex_none
        { s with baseline_price_usd := some (s.baseline_price_usd.getD usd) } t sp usd
        (s.baseline_price_usd.getD usd) hto]
      refine ⟨?_, ?_, hscen⟩
      · simp [hmon]
      · intro u hu hb
        simp [hmon] at hb
    · rw [monitoringStep_dex_some
        { s with baseline_price_usd := some (s.baseline_price_usd.getD usd) } t sp dd usd
        (s.baseline_price_usd.getD usd) hto]
      by_cases hcond : usd > s.baseline_price_usd.getD usd * BUY_SIGNAL_PRICE_INCREASE_PERCENT
          ∧ volumeConfirm dd = true
      · rw [if_pos hcond]
        refine ⟨?_, ?_, hscen⟩
        · constructor
          · intro _
            exact ⟨usd, dd, rfl, rfl, hcond.1, hcond.2⟩
          · intro _
            rfl
        · intro u hu _
          injection hu with hu
          subst hu
          exact ⟨rfl, rfl⟩
      · rw [if_neg hcond]
        refine ⟨?_, ?_, hscen⟩
        · constructor
          · intro h
            simp [hmon] at h
          · rintro ⟨u, d, hu, hd, hgt, hvc⟩
            injection hu with hu
            subst hu
            injection hd with hd
            subst hd
            exact absurd ⟨hgt, hvc⟩ hcond
        · intro u hu hb
          simp [hmon] at hb

theorem buy_signal_first_qualifying_tick_w :
    (tick { resetTokenState 0 with baseline_price_usd := some 1 }
      { current_time := 3, stream_price := some (253/250),
        dex_data := some ddGood }).1.trade_status = .bought := by
  have h := buy_signal_first_qualifying_tick
    { resetTokenState 0 with baseline_price_usd := some 1 }
    3 (some (253/250)) (some ddGood)
    rfl (by norm_num [resetTokenState, NO_BUY_SIGNAL_TIMEOUT_SECONDS])
  refine h.1.mpr ⟨253/250, ddGood, rfl, rfl, ?_, ?_⟩
  · norm_num [resetTokenState, BUY_SIGNAL_PRICE_INCREASE_PERCENT]
  · norm_num [volumeConfirm, volRatioOk, txRatioOk, ddGood, MIN_BUY_VOLUME_USD,
      MIN_BUY_TXS, MIN_SELL_VOLUME_USD, MIN_VOLUME_RATIO_Q, MIN_TX_RATIO_Q]

theorem tick_bought_eq (s : SessionState) (t : ℚ) (sp : Option ℚ) (dex : Option DexData)
    (usd bp h0 : ℚ)
    (hres : resolvePrice sp dex = some usd)
    (hst : s.trade_status = .bought)
    (hbp : s.buy_price_usd = some bp)
    (hh0 : s.highest_price_usd = some h0) :
    tick s { current_time := t, stream_price := sp, dex_data := dex } =
      (if usd ≥ bp * TAKE_PROFIT_THRESHOLD_PERCENT then
         ({ s with baseline_price_usd := some (s.baseline_price_usd.getD usd),
                   highest_price_usd := some (max h0 usd) },
          some { reason := .takeProfit, buy_price := some bp, sell_price := some usd })
       else if usd ≤ bp * STOP_LOSS_THRESHOLD_PERCENT then
         ({ s with baseline_price_usd := some (s.baseline_price_usd.getD usd),
                   highest_price_usd := some (max h0 usd) },
          some { reason := .stopLoss, buy_price := some bp, sell_price := some usd })
       else if max h0 usd > bp * TRAILING_STOP_ACTIVATION_PERCENT ∧
           usd ≤ max h0 usd * TRAILING_STOP_THRESHOLD_PERCENT then
         ({ s with baseline_price_usd := some (s.baseline_price_usd.getD usd),
                   highest_price_usd := some (max h0 usd) },
          some { reason := .trailingStop, buy_price := some bp, sell_price := some usd })
       else if usd ≤ s.baseline_price_usd.getD usd * STAGNATION_PRICE_THRESHOLD_PERCENT then
         match s.stagnation_timer_start with
         | none =>
           ({ s with baseline_price_usd := some (s.baseline_price_usd.getD usd),
                     highest_price_usd := some (max h0 usd),
                     stagnation_timer_start := some t }, none)
         | some t0 =>
           if t - t0 > STAGNATION_TIMEOUT_SECONDS then
             ({ s with baseline_price_usd := some (s.baseline_price_usd.getD usd),
                       highest_price_usd := some (max h0 usd) },
              some { reason := .stagnationTimeout, buy_price := some bp,
                     sell_price := some usd })
           else
             ({ s with baseline_price_usd := some (s.baseline_price_usd.getD usd),
                       highest_price_usd := some (max h0 usd) }, none)
       else
         ({ s with baseline_price_usd := some (s.baseline_price_usd.getD usd),
                   highest_price_usd := some (max h0 usd),
                   stagnation_timer_start := none }, none)) := by
  rw [tick_eq_boughtStep s _ usd bp h0 hres hst hbp hh0]
  simp only [boughtStep, hiShape]

theorem bought_exit_spec (s : SessionState) (t : ℚ) (sp : Option ℚ) (dex : Option DexData)
    (usd bp h0 : ℚ)
    (hres : resolvePrice sp dex = some usd)
    (hst : s.trade_status = .bought)
    (hbp : s.buy_price_usd = some bp)
    (hh0 : s.highest_price_usd = some h0) :
    ((tick s { current_time := t, stream_price := sp, dex_data := dex }).2 =
        some { reason := .takeProfit, buy_price := some bp, sell_price := some usd } ↔
      usd ≥ bp * TAKE_PROFIT_THRESHOLD_PERCENT)
    ∧ ((tick s { current_time := t, stream_price := sp, dex_data := dex }).2 =
        some { reason := .stopLoss, buy_price := some bp, sell_price := some usd } ↔
      ¬usd ≥ bp * TAKE_PROFIT_THRESHOLD_PERCENT ∧ usd ≤ bp * STOP_LOSS_THRESHOLD_PERCENT)
    ∧ ((tick s { current_time := t, stream_price := sp, dex_data := dex }).2 =
        some { reason := .trailingStop, buy_price := some bp, sell_price := some usd } ↔
      ¬usd ≥ bp * TAKE_PROFIT_THRESHOLD_PERCENT ∧ ¬usd ≤ bp * STOP_LOSS_THRESHOLD_PERCENT ∧
      (max h0 usd > bp * TRAILING_STOP_ACTIVATION_PERCENT ∧
        usd ≤ max h0 usd * TRAILING_STOP_THRESHOLD_PERCENT))
    ∧ ((tick s { current_time := t, stream_price := sp, dex_data := dex }).2 =
        some { reason := .stagnationTimeout, buy_price := some bp, sell_price := some usd } ↔
      ¬usd ≥ bp * TAKE_PROFIT_THRESHOLD_PERCENT ∧ ¬usd ≤ bp * STOP_LOSS_THRESHOLD_PERCENT ∧
      ¬(max h0 usd > bp * TRAILING_STOP_ACTIVATION_PERCENT ∧
        usd ≤ max h0 usd * TRAILING_STOP_THRESHOLD_PERCENT) ∧
      (usd ≤ s.baseline_price_usd.getD usd * STAGNATION_PRICE_THRESHOLD_PERCENT ∧
        ∃ t0, s.stagnation_timer_start = some t0 ∧ t - t0 > STAGNATION_TIMEOUT_SECONDS))
    ∧ ((tick s { current_time := t, stream_price := sp, dex_data := dex }).2 = none ↔
      ¬usd ≥ bp * TAKE_PROFIT_THRESHOLD_PERCENT ∧ ¬usd ≤ bp * STOP_LOSS_THRESHOLD_PERCENT ∧
      ¬(max h0 usd > bp * TRAILING_STOP_ACTIVATION_PERCENT ∧
        usd ≤ max h0 usd * TRAILING_STOP_THRESHOLD_PERCENT) ∧
      ¬(usd ≤ s.baseline_price_usd.getD usd * STAGNATION_PRICE_THRESHOLD_PERCENT ∧
        ∃ t0, s.stagnation_timer_start = some t0 ∧ t - t0 > STAGNATION_TIMEOUT_SECONDS)) := by
  rw [tick_bought_eq s t sp dex usd bp h0 hres hst hbp hh0]
  by_cases htp : usd ≥ bp * TAKE_PROFIT_THRESHOLD_PERCENT
  · rw [if_pos htp]
    exact ⟨iff_of_true rfl htp,
      iff_of_false (by simp) (fun h => h.1 htp),
      iff_of_false (by simp) (fun h => h.1 htp),
      iff_of_false (by simp) (fun h => h.1 htp),
      iff_of_false (by simp) (fun h => h.1 htp)⟩
  · rw [if_neg htp]
    by_cases hsl : usd ≤ bp * STOP_LOSS_THRESHOLD_PERCENT
    · rw [if_pos hsl]
      exact ⟨iff_of_false (by simp) htp,
        iff_of_true rfl ⟨htp, hsl⟩,
        iff_of_false (by simp) (fun h => h.2.1 hsl),
        iff_of_false (by simp) (fun h => h.2.1 hsl),
        iff_of_false (by simp) (fun h => h.2.1 hsl)⟩
    · rw [if_neg hsl]
      by_cases hts : max h0 usd > bp * TRAILING_STOP_ACTIVATION_PERCENT ∧
          usd ≤ max h0 usd * TRAILING_STOP_THRESHOLD_PERCENT
      · rw [if_pos hts]
        exact ⟨iff_of_false (by simp) htp,
          iff_of_false (by simp) (fun h => hsl h.2),
          iff_of_true rfl ⟨htp, hsl, hts⟩,
          iff_of_false (by simp) (fun h => h.2.2.1 hts),
          iff_of_false (by simp) (fun h => h.2.2.1 hts)⟩
      · rw [if_neg hts]
        by_cases hsg : usd ≤ s.baseline_price_usd.getD usd * STAGNATION_PRICE_THRESHOLD_PERCENT
        · rw [if_pos hsg]
          rcases hti : s.stagnation_timer_start with _ | t0
          · exact ⟨iff_of_false (by simp) htp,
              iff_of_false (by simp) (fun h => hsl h.2),
              iff_of_false (by simp) (fun h => hts h.2.2),
              iff_of_false (by simp)
                (by rintro ⟨-, -, -, -, t1, ht1, -⟩; exact Option.noConfusion ht1),
              iff_of_true rfl ⟨htp, hsl, hts,
                by rintro ⟨-, t1, ht1, -⟩; exact Option.noConfusion ht1⟩⟩
          · dsimp only
            by_cases hfire : t - t0 > STAGNATION_TIMEOUT_SECONDS
            · rw [if_pos hfire]
              exact ⟨iff_of_false (by simp) htp,
                iff_of_false (by simp) (fun h => hsl h.2),
                iff_of_false (by simp) (fun h => hts h.2.2),
                iff_of_true rfl ⟨htp, hsl, hts, hsg, t0, rfl, hfire⟩,
                iff_of_false (by simp)
                  (by rintro ⟨-, -, -, hn⟩; exact hn ⟨hsg, t0, rfl, hfire⟩)⟩
            · rw [if_neg hfire]
              exact ⟨iff_of_false (by simp) htp,
                iff_of_false (by simp) (fun h => hsl h.2),
                iff_of_false (by simp) (fun h => hts h.2.2),
                iff_of_false (by simp)
                  (by rintro ⟨-, -, -, -, t1, ht1, hgt⟩
                      injection ht1 with h
                      subst h
                      exact hfire hgt),
                iff_of_true rfl ⟨htp, hsl, hts,
                  by rintro ⟨-, t1, ht1, hgt⟩
                     injection ht1 with h
                     subst h
                     exact hfire hgt⟩⟩
        · rw [if_neg hsg]
          exact ⟨iff_of_false (by simp) htp,
            iff_of_false (by simp) (fun h => hsl h.2),
            iff_of_false (by simp) (fun h => hts h.2.2),
            iff_of_false (by simp) (fun h => hsg h.2.2.2.1),
            iff_of_true rfl ⟨htp, hsl, hts, fun h => hsg h.1⟩⟩

theorem bought_timer_spec (s : SessionState) (t : ℚ) (sp : Option ℚ) (dex : Option DexData)
    (usd bp h0 : ℚ)
    (hres : resolvePrice sp dex = some usd)
    (hst : s.trade_status = .bought)
    (hbp : s.buy_price_usd = some bp)
    (hh0 : s.highest_price_usd = some h0)
    (htp : ¬usd ≥ bp * TAKE_PROFIT_THRESHOLD_PERCENT)
    (hsl : ¬usd ≤ bp * STOP_LOSS_THRESHOLD_PERCENT)
    (hts : ¬(max h0 usd > bp * TRAILING_STOP_ACTIVATION_PERCENT ∧
        usd ≤ max h0 usd * TRAILING_STOP_THRESHOLD_PERCENT)) :
    (s.stagnation_timer_start = none →
      usd ≤ s.baseline_price_usd.getD usd * STAGNATION_PRICE_THRESHOLD_PERCENT →
      (tick s { current_time := t, stream_price := sp,
                dex_data := dex }).1.stagnation_timer_start = some t ∧
      (tick s { current_time := t, stream_price := sp, dex_data := dex }).2 = none)
    ∧ (¬usd ≤ s.baseline_price_usd.getD usd * STAGNATION_PRICE_THRESHOLD_PERCENT →
      (tick s { current_time := t, stream_price := sp,
                dex_data := dex }).1.stagnation_timer_start = none ∧
      (tick s { current_time := t, stream_price := sp, dex_data := dex }).2 = none)
    ∧ (∀ t0, s.stagnation_timer_start = some t0 →
      usd ≤ s.baseline_price_usd.getD usd * STAGNATION_PRICE_THRESHOLD_PERCENT →
      ¬t - t0 > STAGNATION_TIMEOUT_SECONDS →
      (tick s { current_time := t, stream_price := sp,
                dex_data := dex }).1.stagnation_timer_start = some t0 ∧
      (tick s { current_time := t, stream_price := sp, dex_data := dex }).2 = none) := by
  rw [tick_bought_eq s t sp dex usd bp h0 hres hst hbp hh0]
  rw [if_neg htp, if_neg hsl, if_neg hts]
  refine ⟨?_, ?_, ?_⟩
  · intro hn hsg
    rw [if_pos hsg, hn]
    exact ⟨rfl, rfl⟩
  · intro hnsg
    rw [if_neg hnsg]
    exact ⟨rfl, rfl⟩
  · intro t0 ht0 hsg hnf
    rw [if_pos hsg, ht0]
    dsimp only
    rw [if_neg hnf]
    exact ⟨rfl, rfl⟩

/-- C3: on a Bought tick with a resolved price, the exit conditions are
evaluated in the precedence TakeProfit, StopLoss, TrailingStop,
StagnationTimeout, the first true condition determines the emitted outcome,
ticks with no true condition emit none, and the single optional outcome of
a tick is unique. -/
theorem exit_precedence_first_true_wins (s : SessionState)
    (t : ℚ) (sp : Option ℚ) (dex : Option DexData) (usd bp h0 : ℚ)
    (hres : resolvePrice sp dex = some usd)
    (hst : s.trade_status = .bought)
    (hbp : s.buy_price_usd = some bp)
    (hh0 : s.highest_price_usd = some h0) :
    ((tick s { current_time := t, stream_price := sp, dex_data := dex }).2 =
        some { reason := .takeProfit, buy_price := some bp, sell_price := some usd } ↔
      usd ≥ bp * TAKE_PROFIT_THRESHOLD_PERCENT)
    ∧ ((tick s { current_time := t, stream_price := sp, dex_data := dex }).2 =
        some { reason := .stopLoss, buy_price := some bp, sell_price := some usd } ↔
      ¬usd ≥ bp * TAKE_PROFIT_THRESHOLD_PERCENT ∧ usd ≤ bp * STOP_LOSS_THRESHOLD_PERCENT)
    ∧ ((tick s { current_time := t, stream_price := sp, dex_data := dex }).2 =
        some { reason := .trailingStop, buy_price := some bp, sell_price := some usd } ↔
      ¬usd ≥ bp * TAKE_PROFIT_THRESHOLD_PERCENT ∧ ¬usd ≤ bp * STOP_LOSS_THRESHOLD_PERCENT ∧
      (max h0 usd > bp * TRAILING_STOP_ACTIVATION_PERCENT ∧
        usd ≤ max h0 usd * TRAILING_STOP_THRESHOLD_PERCENT))
    ∧ ((tick s { current_time := t, stream_price := sp, dex_data := dex }).2 =
        some { reason := .stagnationTimeout, buy_price := some bp, sell_price := some usd } ↔
      ¬usd ≥ bp * TAKE_PROFIT_THRESHOLD_PERCENT ∧ ¬usd ≤ bp * STOP_LOSS_THRESHOLD_PERCENT ∧
      ¬(max h0 usd > bp * TRAILING_STOP_ACTIVATION_PERCENT ∧
        usd ≤ max h0 usd * TRAILING_STOP_THRESHOLD_PERCENT) ∧
      (usd ≤ s.baseline_price_usd.getD usd * STAGNATION_PRICE_THRESHOLD_PERCENT ∧
        ∃ t0, s.stagnation_timer_start = some t0 ∧ t - t0 > STAGNATION_TIMEOUT_SECONDS))
    ∧ ((tick s { current_time := t, stream_price := sp, dex_data := dex }).2 = none ↔
      ¬usd ≥ bp * TAKE_PROFIT_THRESHOLD_PERCENT ∧ ¬usd ≤ bp * STOP_LOSS_THRESHOLD_PERCENT ∧
      ¬(max h0 usd > bp * TRAILING_STOP_ACTIVATION_PERCENT ∧
        usd ≤ max h0 usd * TRAILING_STOP_THRESHOLD_PERCENT) ∧
      ¬(usd ≤ s.baseline_price_usd.getD usd * STAGNATION_PRICE_THRESHOLD_PERCENT ∧
        ∃ t0, s.stagnation_timer_start = some t0 ∧ t - t0 > STAGNATION_TIMEOUT_SECONDS))
    ∧ (∀ o1 o2 : Outcome,
        (tick s { current_time := t, stream_price := sp, dex_data := dex }).2 = some o1 →
        (tick s { current_time := t, stream_price := sp, dex_data := dex }).2 = some o2 →
        o1 = o2) := by
  have h := bought_exit_spec s t sp dex usd bp h0 hres hst hbp hh0
  refine ⟨h.1, h.2.1, h.2.2.1, h.2.2.2.1, h.2.2.2.2, ?_⟩
  intro o1 o2 h1 h2
  have h12 := h1.symm.trans h2
  injection h12

theorem exit_precedence_first_true_wins_w :
    (tick { baseline_price_usd := some 1, buy_price_usd := some 1,
            highest_price_usd := some 1, trade_status := .bought,
            monitor_start_time := 0, stagnation_timer_start := none }
      { current_time := 10, stream_price := some (23/20), dex_data := none }).2 =
      some { reason := .takeProfit, buy_price := some 1, sell_price := some (23/20) } := by
  have h := exit_precedence_first_true_wins
    { baseline_price_usd := some 1, buy_price_usd := some 1,
      highest_price_usd := some 1, trade_status := .bought,
      monitor_start_time := 0, stagnation_timer_start := none }
    10 (some (23/20)) none (23/20) 1 1 rfl rfl rfl rfl
  exact h.1.mpr (by norm_num [TAKE_PROFIT_THRESHOLD_PERCENT])

/-- C4 counterexample: with a buy price of 1 the peak 1.01 equals buy price
times the activation multiplier exactly, and the price 0.805 is below peak
times the trailing multiplier (0.808) while hitting neither take profit nor
stop loss; the claim says the trailing stop is armed at this boundary and
must fire, but the strict comparison in the code leaves it unarmed: the tick
emits no outcome and the session stays Bought. -/
theorem trailing_activation_boundary_not_armed :
    (101/100 : ℚ) = 1 * TRAILING_STOP_ACTIVATION_PERCENT
    ∧ (161/200 : ℚ) ≤ (101/100) * TRAILING_STOP_THRESHOLD_PERCENT
    ∧ ¬(161/200 : ℚ) ≥ 1 * TAKE_PROFIT_THRESHOLD_PERCENT
    ∧ ¬(161/200 : ℚ) ≤ 1 * STOP_LOSS_THRESHOLD_PERCENT
    ∧ (tick { baseline_price_usd := some 1, buy_price_usd := some 1,
              highest_price_usd := some (101/100), trade_status := .bought,
              monitor_start_time := 0, stagnation_timer_start := none }
        { current_time := 10, stream_price := some (161/200), dex_data := none }).2 = none
    ∧ (tick { baseline_price_usd := some 1, buy_price_usd := some 1,
              highest_price_usd := some (101/100), trade_status := .bought,
              monitor_start_time := 0, stagnation_timer_start := none }
        { current_time := 10, stream_price := some (161/200),
          dex_data := none }).1.trade_status = .bought := by
  refine ⟨by norm_num [TRAILING_STOP_ACTIVATION_PERCENT],
    by norm_num [TRAILING_STOP_THRESHOLD_PERCENT],
    by norm_num [TAKE_PROFIT_THRESHOLD_PERCENT],
    by norm_num [STOP_LOSS_THRESHOLD_PERCENT], ?_, ?_⟩
  · norm_num [tick, resolvePrice, boughtStep, TAKE_PROFIT_THRESHOLD_PERCENT,
      STOP_LOSS_THRESHOLD_PERCENT, TRAILING_STOP_ACTIVATION_PERCENT,
      TRAILING_STOP_THRESHOLD_PERCENT, STAGNATION_PRICE_THRESHOLD_PERCENT]
  · norm_num [tick, resolvePrice, boughtStep, TAKE_PROFIT_THRESHOLD_PERCENT,
      STOP_LOSS_THRESHOLD_PERCENT, TRAILING_STOP_ACTIVATION_PERCENT,
      TRAILING_STOP_THRESHOLD_PERCENT, STAGNATION_PRICE_THRESHOLD_PERCENT]

/-- C4 amended: the trailing stop is armed exactly when the updated peak
strictly exceeds buy price times the activation multiplier (the boundary
case is not armed), and the trailing-stop outcome fires exactly when, in
addition, neither take profit nor stop loss fired and the price is at or
below the peak times the trailing multiplier. -/
theorem trailing_stop_strict_activation (s : SessionState)
    (t : ℚ) (sp : Option ℚ) (dex : Option DexData) (usd bp h0 : ℚ)
    (hres : resolvePrice sp dex = some usd)
    (hst : s.trade_status = .bought)
    (hbp : s.buy_price_usd = some bp)
    (hh0 : s.highest_price_usd = some h0) :
    (tick s { current_time := t, stream_price := sp, dex_data := dex }).2 =
        some { reason := .trailingStop, buy_price := some bp, sell_price := some usd } ↔
      ¬usd ≥ bp * TAKE_PROFIT_THRESHOLD_PERCENT ∧ ¬usd ≤ bp * STOP_LOSS_THRESHOLD_PERCENT ∧
      (max h0 usd > bp * TRAILING_STOP_ACTIVATION_PERCENT ∧
        usd ≤ max h0 usd * TRAILING_STOP_THRESHOLD_PERCENT) :=
  (bought_exit_spec s t sp dex usd bp h0 hres hst hbp hh0).2.2.1

theorem trailing_stop_strict_activation_w :
    (tick { baseline_price_usd := some 1, buy_price_usd := some 1,
            highest_price_usd := some (21/20), trade_status := .bought,
            monitor_start_time := 0, stagnation_timer_start := none }
      { current_time := 10, stream_price := some (41/50), dex_data := none }).2 =
      some { reason := .trailingStop, buy_price := some 1, sell_price := some (41/50) } := by
  have h := trailing_stop_strict_activation
    { baseline_price_usd := some 1, buy_price_usd := some 1,
      highest_price_usd := some (21/20), trade_status := .bought,
      monitor_start_time := 0, stagnation_timer_start := none }
    10 (some (41/50)) none (41/50) 1 (21/20) rfl rfl rfl rfl
  refine h.mpr ⟨?_, ?_, ?_, ?_⟩
  · norm_num [TAKE_PROFIT_THRESHOLD_PERCENT]
  · norm_num [STOP_LOSS_THRESHOLD_PERCENT]
  · norm_num [TRAILING_STOP_ACTIVATION_PERCENT]
  · norm_num [TRAILING_STOP_THRESHOLD_PERCENT]

/-- C5: on a Bought tick with a resolved price on which no
higher-precedence exit fires, the StagnationTimeout outcome fires exactly
when the stagnation price condition holds and the running timer started
strictly more than the timeout window ago; the timer starts on the first
tick the condition holds, resets to None on any tick where the condition
fails, and is left unchanged while the condition holds within the
window. -/
theorem stagnation_timer_contract (s : SessionState)
    (t : ℚ) (sp : Option ℚ) (dex : Option DexData) (usd bp h0 : ℚ)
    (hres : resolvePrice sp dex = some usd)
    (hst : s.trade_status = .bought)
    (hbp : s.buy_price_usd = some bp)
    (hh0 : s.highest_price_usd = some h0)
    (htp : ¬usd ≥ bp * TAKE_PROFIT_THRESHOLD_PERCENT)
    (hsl : ¬usd ≤ bp * STOP_LOSS_THRESHOLD_PERCENT)
    (hts : ¬(max h0 usd > bp * TRAILING_STOP_ACTIVATION_PERCENT ∧
        usd ≤ max h0 usd * TRAILING_STOP_THRESHOLD_PERCENT)) :
    ((tick s { current_time := t, stream_price := sp, dex_data := dex }).2 =
        some { reason := .stagnationTimeout, buy_price := some bp, sell_price := some usd } ↔
      usd ≤ s.baseline_price_usd.getD usd * STAGNATION_PRICE_THRESHOLD_PERCENT ∧
        ∃ t0, s.stagnation_timer_start = some t0 ∧ t - t0 > STAGNATION_TIMEOUT_SECONDS)
    ∧ (s.stagnation_timer_start = none →
      usd ≤ s.baseline_price_usd.getD usd * STAGNATION_PRICE_THRESHOLD_PERCENT →
      (tick s { current_time := t, stream_price := sp,
                dex_data := dex }).1.stagnation_timer_start = some t ∧
      (tick s { current_time := t, stream_price := sp, dex_data := dex }).2 = none)
    ∧ (¬usd ≤ s.baseline_price_usd.getD usd * STAGNATION_PRICE_THRESHOLD_PERCENT →
      (tick s { current_time := t, stream_price := sp,
                dex_data := dex }).1.stagnation_timer_start = none ∧
      (tick s { current_time := t, stream_price := sp, dex_data := dex }).2 = none)
    ∧ (∀ t0, s.stagnation_timer_start = some t0 →
      usd ≤ s.baseline_price_usd.getD usd * STAGNATION_PRICE_THRESHOLD_PERCENT →
      t - t0 ≤ STAGNATION_TIMEOUT_SECONDS →
      (tick s { current_time := t, stream_price := sp,
                dex_data := dex }).1.stagnation_timer_start = some t0 ∧
      (tick s { current_time := t, stream_price := sp, dex_data := dex }).2 = none) := by
  have hx := bought_exit_spec s t sp dex usd bp h0 hres hst hbp hh0
  have ht := bought_timer_spec s t sp dex usd bp h0 hres hst hbp hh0 htp hsl hts
  refine ⟨?_, ht.1, ht.2.1, ?_⟩
  · constructor
    · intro h
      exact (hx.2.2.2.1.mp h).2.2.2
    · intro h
      exact hx.2.2.2.1.mpr ⟨htp, hsl, hts, h⟩
  · intro t0 ht0 hsg hle
    exact ht.2.2 t0 ht0 hsg (not_lt.mpr hle)

theorem stagnation_timer_contract_w :
    (tick { baseline_price_usd := some 2, buy_price_usd := some 1,
            highest_price_usd := some 1, trade_status := .bought,
            monitor_start_time := 0, stagnation_timer_start := some 0 }
      { current_time := 200, stream_price := some 1, dex_data := none }).2 =
      some { reason := .stagnationTimeout, buy_price := some 1, sell_price := some 1 } := by
  have h := stagnation_timer_contract
    { baseline_price_usd := some 2, buy_price_usd := some 1,
      highest_price_usd := some 1, trade_status := .bought,
      monitor_start_time := 0, stagnation_timer_start := some 0 }
    200 (some 1) none 1 1 1 rfl rfl rfl rfl
    (by norm_num [TAKE_PROFIT_THRESHOLD_PERCENT])
    (by norm_num [STOP_LOSS_THRESHOLD_PERCENT])
    (by norm_num [TRAILING_STOP_ACTIVATION_PERCENT, TRAILING_STOP_THRESHOLD_PERCENT])
  refine h.1.mpr ⟨?_, 0, rfl, ?_⟩
  · norm_num [STAGNATION_PRICE_THRESHOLD_PERCENT]
  · norm_num [STAGNATION_TIMEOUT_SECONDS]

theorem mem_dedupFirst (a : String) : ∀ l : List String, a ∈ dedupFirst l ↔ a ∈ l := by
  intro l
  induction l with
  | nil => simp [dedupFirst]
  | cons b rest ih =>
    by_cases hab : a = b
    · subst hab
      simp [dedupFirst]
    · simp [dedupFirst, hab, List.mem_filter, ih]

/-- C6 counterexample: removing the address X from a feed holding only the
address A is a no-op that returns False, where the claim promises a success
return; a missing feed file also returns False. -/
theorem remove_absent_returns_false :
    remove_token_from_csv "X" (some ["A"]) = (false, some ["A"])
    ∧ ("X" : String) ∉ (["A"] : List String)
    ∧ remove_token_from_csv "X" none = (false, none) := by
  refine ⟨?_, by decide, rfl⟩
  rfl

/-- C6 amended: removing an address that is absent from the feed, or
removing from a missing feed file, is a no-op that raises no error and
leaves the feed unchanged, but it returns False, the same value as the
failure paths, rather than a success indicator. -/
theorem remove_absent_noop (addr : String) :
    (∀ rows : List String, addr ∉ rows →
      remove_token_from_csv addr (some rows) = (false, some rows))
    ∧ remove_token_from_csv addr none = (false, none) := by
  constructor
  · intro rows habs
    simp only [remove_token_from_csv]
    rw [if_neg (fun hmem => habs ((mem_dedupFirst addr rows).mp hmem))]
  · rfl

theorem remove_absent_noop_w :
    remove_token_from_csv "X" (some ["A"]) = (false, some ["A"])
    ∧ remove_token_from_csv "X" none = (false, none) :=
  ⟨(remove_absent_noop "X").1 ["A"] (by decide), (remove_absent_noop "X").2⟩

/-- C7 counterexample: when the single fetch of an iteration fails, the
code retains the cached value without consulting any second source, while
the refresh the claim describes would adopt a valid secondary price (160
here, against a cache of 155); sol_price_refresh has no secondary input at
all because the source queries exactly one endpoint. -/
theorem sol_refresh_has_no_secondary :
    sol_price_refresh 155 .failure = 155
    ∧ sol_price_refresh_specced 155 .failure (.response 200 (some 160)) = 160
    ∧ (155 : ℚ) ≠ 160 := by
  refine ⟨rfl, ?_, by norm_num⟩
  norm_num [sol_price_refresh_specced]

/-- C7 amended: each refresh queries the single CoinGecko source; on a
raised exception, a non-200 status, a missing price field or a zero price
the previously cached value is retained, and the cache is never nulled:
every refresh yields either the old cached value or a fresh nonzero
price. -/
theorem sol_refresh_retains_or_valid (cached : ℚ) (r : SolFetchResult) :
    sol_price_refresh cached r = cached
    ∨ ∃ p, r = .response 200 (some p) ∧ p ≠ 0 ∧ p ≠ cached ∧
        sol_price_refresh cached r = p := by
  rcases r with ⟨status, price⟩ | _
  · by_cases hs : status = 200
    · subst hs
      rcases price with _ | p
      · left
        rfl
      · by_cases hp : p ≠ 0 ∧ p ≠ cached
        · right
          exact ⟨p, rfl, hp.1, hp.2, by simp [sol_price_refresh, hp]⟩
        · left
          simp [sol_price_refresh, hp]
    · left
      simp [sol_price_refresh, hs]
  · left
    rfl

/-- C8 counterexample: a malformed first message on a connection makes the
listener abandon the whole connection and reconnect; the well-formed
matching message behind it is lost, where the claim promises only the
single malformed message is dropped and no reconnect happens.  Without the
malformed message in front, the same well-formed message is appended and
the connection ends normally. -/
theorem malformed_message_aborts_conn :
    listen_conn "M" [] [.malformed, .parsed "M" 1] = ([], .errorReconnect)
    ∧ listen_conn "M" [] [.parsed "M" 1] = ([("M", 1)], .closed) := by
  constructor
  · rfl
  · simp [listen_conn]

/-- C8 amended: the listener has no per-message error handling: a message
on which parsing raises ends the current connection with a reconnect after
backoff and the remaining messages of that connection are lost; a message
that parses is appended to the buffer when its mint matches, without any
numeric-field validation, and a connection whose stream ends without a
parse failure terminates normally. -/
theorem listener_conn_step_contract (mint : String) (buf : List (String × ℕ))
    (rest : List StreamMsg) (m : String) (body : ℕ) :
    listen_conn mint buf (.malformed :: rest) = (buf, .errorReconnect)
    ∧ listen_conn mint buf (.parsed m body :: rest) =
        listen_conn mint (if m = mint then buf ++ [(m, body)] else buf) rest
    ∧ listen_conn mint buf [] = (buf, .closed) :=
  ⟨rfl, rfl, rfl⟩

/-- C9 counterexample: a trade that sells exactly at its buy price has a
computed gain of exactly zero, and the ledger row written for it carries
the result LOSS, not a breakeven marker. -/
theorem zero_gain_written_as_loss :
    (log_trade_result "T" "M" "Take profit" (some 1) (some 1)).gl_pct = some 0
    ∧ (log_trade_result "T" "M" "Take profit" (some 1) (some 1)).result = "LOSS" := by
  constructor
  · norm_num [log_trade_result, gain_loss_pct]
  · norm_num [log_trade_result, gain_loss_pct]

/-- C9 amended: the qualitative result of a ledger record is PROFIT when
the computed percent gain is strictly positive and LOSS when it is zero or
negative — exactly zero is written as LOSS, no breakeven value exists — and
it is the empty string when no gain was computed. -/
theorem ledger_result_sign (token mint reason : String) (buy sell : Option ℚ) :
    ((log_trade_result token mint reason buy sell).gl_pct = gain_loss_pct buy sell)
    ∧ (∀ g, gain_loss_pct buy sell = some g →
        (0 < g → (log_trade_result token mint reason buy sell).result = "PROFIT")
        ∧ (g ≤ 0 → (log_trade_result token mint reason buy sell).result = "LOSS"))
    ∧ (gain_loss_pct buy sell = none →
        (log_trade_result token mint reason buy sell).result = "") := by
  refine ⟨rfl, ?_, ?_⟩
  · intro g hg
    constructor
    · intro hpos
      simp [log_trade_result, hg, hpos]
    · intro hle
      simp [log_trade_result, hg, not_lt.mpr hle]
  · intro hn
    simp [log_trade_result, hn]

theorem ledger_result_sign_w :
    (log_trade_result "T" "M" "Take profit" (some 1) (some (23/20))).result = "PROFIT"
    ∧ (log_trade_result "T" "M" "No buy signal timeout" none (some 1)).result = "" := by
  constructor
  · exact ((ledger_result_sign "T" "M" "Take profit" (some 1) (some (23/20))).2.1
      (15 : ℚ) (by norm_num [gain_loss_pct])).1 (by norm_num)
  · exact (ledger_result_sign "T" "M" "No buy signal timeout" none (some 1)).2.2 rfl

/-- C10: the percent gain is computed exactly when both prices are present
and the buy price is strictly positive — so the division is guarded and its
divisor is strictly positive whenever it happens — and in every other case
the gain field is None (serialized as the empty cell) and the result field
is the empty string. -/
theorem gain_loss_guarded (token mint reason : String) (buy sell : Option ℚ) :
    (∀ g, gain_loss_pct buy sell = some g →
      ∃ b s, buy = some b ∧ sell = some s ∧ 0 < b ∧ g = (s - b) / b * 100)
    ∧ ((∃ g, gain_loss_pct buy sell = some g) ↔
        ∃ b s, buy = some b ∧ sell = some s ∧ 0 < b)
    ∧ (gain_loss_pct buy sell = none →
        (log_trade_result token mint reason buy sell).gl_pct = none ∧
        (log_trade_result token mint reason buy sell).result = "") := by
  refine ⟨?_, ?_, ?_⟩
  · intro g hg
    rcases buy with _ | b
    · exact absurd hg (by simp [gain_loss_pct])
    · rcases sell with _ | sv
      · exact absurd hg (by simp [gain_loss_pct])
      · by_cases hb : b > 0
        · refine ⟨b, sv, rfl, rfl, hb, ?_⟩
          simp [gain_loss_pct, hb] at hg
          exact hg.symm
        · exact absurd hg (by simp [gain_loss_pct, hb])
  · constructor
    · rintro ⟨g, hg⟩
      rcases buy with _ | b
      · exact absurd hg (by simp [gain_loss_pct])
      · rcases sell with _ | sv
        · exact absurd hg (by simp [gain_loss_pct])
        · by_cases hb : b > 0
          · exact ⟨b, sv, rfl, rfl, hb⟩
          · exact absurd hg (by simp [gain_loss_pct, hb])
    · rintro ⟨b, sv, hbuy, hsell, hb⟩
      subst hbuy
      subst hsell
      exact ⟨(sv - b) / b * 100, by simp [gain_loss_pct, hb]⟩
  · intro hn
    exact ⟨by simp [log_trade_result, hn], by simp [log_trade_result, hn]⟩

theorem gain_loss_guarded_w :
    (log_trade_result "T" "M" "No buy signal timeout" none (some 1)).gl_pct = none
    ∧ (log_trade_result "T" "M" "No buy signal timeout" none (some 1)).result = "" :=
  (gain_loss_guarded "T" "M" "No buy signal timeout" none (some 1)).2.2 rfl

end SniperX
